import Mathlib

/-!
Verification of the scheduling and delivery core of the publisher
repository.  The definitions below are shallow embeddings of the Python
source under `src/app/`: pure helpers become Lean functions, timestamps
become integer seconds (the naive-UTC convention), stored rows become
structures, remote-call outcomes become explicit environment records, and
Python exceptions become `Except` values.
-/

namespace Publisher

/-! Statuses of `Publication` and `Post` rows (`app/models.py`). -/

inductive PubStatus
  | scheduled
  | retry
  | processing
  | sent
  | failed
  | canceled
  deriving DecidableEq, Repr

inductive PostStatus
  | draft
  | scheduled
  | queued
  | sent
  | failed
  | canceled
  deriving DecidableEq, Repr

/-- Embedding of the `publications` table row (`app/models.py`,
`Publication`).  Timestamps are integer seconds; nullable columns are
`Option`. -/
structure Publication where
  id : Nat
  post_id : Nat
  planned_at : Int
  ready_at : Int
  status : PubStatus
  attempts : Nat
  locked_at : Option Int
  locked_by : Option String
  telegram_message_id : Option String
  sent_at : Option Int
  last_error : Option String
  deriving DecidableEq, Repr

/-- Embedding of the `SendResult` dataclass
(`app/services/telegram_client.py`).  Field defaults mirror the Python
dataclass defaults, in particular `retryable = True`. -/
structure SendResult where
  ok : Bool
  message_id : Option String := none
  error : Option String := none
  retry_after_seconds : Option Int := none
  retryable : Bool := true
  deriving DecidableEq, Repr

/-! Chat-id normalization (`app/services/telegram_client.py`,
`normalize_chat_id`).  Python `str.strip` becomes whitespace trimming on
the character list; the `for prefix in (...)` loop with `removeprefix`
becomes a left fold that strips each head at most once, in order. -/

/-- Python `str.strip()` on the underlying character list. -/
def pyStrip (s : String) : String :=
  String.mk (((s.data.dropWhile Char.isWhitespace).reverse.dropWhile Char.isWhitespace).reverse)

/-- The three `t.me` URL heads checked by `normalize_chat_id`, in source
order. -/
def tMeHeads : List String :=
  ["https://t.me/", "http://t.me/", "t.me/"]

/-- One pass of the source loop: strip each head at most once, in order. -/
def stripTMeHeads (value : String) : String :=
  tMeHeads.foldl
    (fun v p => if p.data.isPrefixOf v.data then String.mk (v.data.drop p.data.length) else v)
    value

/-- Python `value.lstrip("-").isdigit()`. -/
def pyLstripMinusIsDigit (value : String) : Bool :=
  let d := value.data.dropWhile (fun c => c == '-')
  !d.isEmpty && d.all Char.isDigit

/-- Character class of the regex `[A-Za-z0-9_]`. -/
def chatNameChar (c : Char) : Bool :=
  (c.isUpper || c.isLower || c.isDigit) || c == '_'

/-- Python `re.fullmatch(r"[A-Za-z0-9_]{5,}", value)`. -/
def chatNameMatch (value : String) : Bool :=
  value.data.length ≥ 5 && value.data.all chatNameChar

/-- The final four-way classification of `normalize_chat_id`, after the
strip and head-removal preprocessing.  Python `f"@{value}"` is the
character list with `'@'` consed on. -/
def classifyChatId (value : String) : String :=
  if value.data.head? = some '@' then value
  else if pyLstripMinusIsDigit value then value
  else if chatNameMatch value then String.mk ('@' :: value.data)
  else value

/-- Embedding of `normalize_chat_id` (`app/services/telegram_client.py`,
lines 142-153). -/
def normalize_chat_id (raw : String) : String :=
  classifyChatId (stripTMeHeads (pyStrip raw))

/-! Timezone resolution (`app/utils/timezone.py`).  The zoneinfo database
is abstracted as an availability predicate `zdb : String → Bool`; the
resolved object is a `TZ` value.  The `TZ.utc` constructor stands for the
`datetime.UTC` singleton, so the Python identity test `resolved is not
UTC` is equality with `TZ.utc`: a `ZoneInfo("UTC")` object is a distinct
value `TZ.zoneinfo "UTC"`, exactly as in the source. -/

inductive TZ
  | zoneinfo (name : String)
  | fixedOffset (name : String) (hours : Int)
  | utc
  deriving DecidableEq, Repr

def DEFAULT_TIMEZONE : String := "Europe/Moscow"

/-- The hard-coded `FALLBACK_FIXED_OFFSETS` dict: only `"Europe/Moscow"`
maps to a fixed `timezone(timedelta(hours=3), name="Europe/Moscow")`. -/
def FALLBACK_FIXED_OFFSETS (name : String) : Option TZ :=
  if name = "Europe/Moscow" then some (TZ.fixedOffset "Europe/Moscow" 3) else none

/-- Embedding of `_resolve_timezone` (`app/utils/timezone.py`, lines
19-34): try the zoneinfo database, else the fixed-offset dict, else the
UTC singleton. -/
def resolve_timezone (zdb : String → Bool) (name : String) : TZ :=
  if zdb name then TZ.zoneinfo name
  else
    match FALLBACK_FIXED_OFFSETS name with
    | some tz => tz
    | none => TZ.utc

/-- Python `(tz_name or DEFAULT_TIMEZONE).strip() or DEFAULT_TIMEZONE`. -/
def normalizeTzName (tz_name : Option String) : String :=
  match tz_name with
  | none => DEFAULT_TIMEZONE
  | some s =>
      if s = "" then DEFAULT_TIMEZONE
      else
        let t := pyStrip s
        if t = "" then DEFAULT_TIMEZONE else t

/-- Embedding of `get_zoneinfo` (`app/utils/timezone.py`, lines 37-55).
The guard `resolved is not UTC or name == "UTC"` returns the resolved
zone; otherwise a non-default name falls back to resolving the default
zone, and the default name itself falls back to UTC. -/
def get_zoneinfo (zdb : String → Bool) (tz_name : Option String) : TZ :=
  let name := normalizeTzName tz_name
  let resolved := resolve_timezone zdb name
  if resolved ≠ TZ.utc ∨ name = "UTC" then resolved
  else if name ≠ DEFAULT_TIMEZONE then resolve_timezone zdb DEFAULT_TIMEZONE
  else TZ.utc

/-- UTC offset, in seconds, of a resolved zone at an instant.  Offsets of
real zoneinfo zones vary with the instant (DST), so they are supplied as
an abstract table `ofs`; a fixed-offset zone has a constant offset and
the UTC singleton has offset zero. -/
def TZ.offsetAt (ofs : String → Int → Int) (t : Int) : TZ → Int
  | TZ.zoneinfo name => ofs name t
  | TZ.fixedOffset _ hours => hours * 3600
  | TZ.utc => 0

/-! Error classification of `TelegramClient._execute`
(`app/services/telegram_client.py`, lines 43-83).  The aiogram exception
that interrupts a remote call is embedded as a `TgException` value
carrying its `str(exc)` text; the `except` arms become a total match. -/

inductive TgException
  | retryAfter (seconds : Int) (text : String)
  | badRequest (text : String)
  | unauthorized (text : String)
  | forbidden (text : String)
  | notFound (text : String)
  | networkError (text : String)
  | apiError (text : String)
  deriving DecidableEq, Repr

/-- Bool substring test on character lists (Python `needle in hay`). -/
def hasSub (needle : List Char) : List Char → Bool
  | [] => needle.isEmpty
  | c :: rest => needle.isPrefixOf (c :: rest) || hasSub needle rest

/-- Python `str.lower()` on the underlying character list. -/
def pyToLower (s : String) : String :=
  String.mk (s.data.map Char.toLower)

/-- The hand-written channel-permission message substituted by
`_parse_tg_error`. -/
def channelMemberMsg : String :=
  "Telegram отклонил отправку: бот не может писать в этот канал. Проверьте chat_id, что бот добавлен именно в целевой канал и назначен администратором с правом публикации."

/-- Embedding of `TelegramClient._parse_tg_error` (lines 76-83): keep
`str(exc)` unless it mentions the bot not being a channel member, and tag
the supplied retryability. -/
def parse_tg_error (excText : String) (retryable : Bool) : SendResult :=
  let error_text :=
    if hasSub "bot is not a member of the channel chat".data (pyToLower excText).data
    then channelMemberMsg else excText
  { ok := false, error := some error_text, retryable := retryable }

/-- Embedding of the `except` arms of `TelegramClient._execute` (lines
67-72): `TelegramRetryAfter` keeps its `retry_after`; the four 4xx
exception types are non-retryable; network and generic API errors are
retryable. -/
def classify_execute_exception : TgException → SendResult
  | TgException.retryAfter s text =>
      { ok := false, error := some text, retry_after_seconds := some s, retryable := true }
  | TgException.badRequest t => parse_tg_error t false
  | TgException.unauthorized t => parse_tg_error t false
  | TgException.forbidden t => parse_tg_error t false
  | TgException.notFound t => parse_tg_error t false
  | TgException.networkError t => parse_tg_error t true
  | TgException.apiError t => parse_tg_error t true

/-- Embedding of `normalize_media_type`
(`app/services/telegram_client.py`, lines 135-139).  The argument is the
Python `raw_type` string when one is present; `None` and the empty string
both fall to `"photo"` through `raw_type or "photo"`. -/
def normalize_media_type (raw : Option String) : String :=
  let base := match raw with
    | none => "photo"
    | some s => if s = "" then "photo" else s
  let mt := pyToLower (pyStrip base)
  let mt :=
    if mt = "image" then "photo"
    else if mt = "img" then "photo"
    else if mt = "gif" then "document"
    else if mt = "file" then "document"
    else mt
  if mt = "photo" || mt = "video" || mt = "document" then mt else "photo"

/-! JSON-backed post fields (`app/services/json_fields.py`).  A parsed
JSON value is a `JVal`; a stored text field is represented by its parse
classification `JsonText` (blank, unparseable, or parsed to a value),
which is all `parse_json_field` inspects of the raw text. -/

inductive JVal
  | null
  | bool (b : Bool)
  | num (n : Int)
  | str (s : String)
  | arr (xs : List JVal)
  | obj (fields : List (String × JVal))

/-- Python truthiness of a parsed JSON value. -/
def JVal.truthy : JVal → Bool
  | JVal.null => false
  | JVal.bool b => b
  | JVal.num n => n != 0
  | JVal.str s => s ≠ ""
  | JVal.arr xs => !xs.isEmpty
  | JVal.obj fs => !fs.isEmpty

/-- Truthiness of a `dict.get` result (`None` for a missing key is
falsy). -/
def optTruthy : Option JVal → Bool
  | none => false
  | some v => v.truthy

/-- Lookup in a parsed JSON object, Python `dict.get(key)`. -/
def lookupField : List (String × JVal) → String → Option JVal
  | [], _ => none
  | (k, v) :: rest, key => if k = key then some v else lookupField rest key

/-- A stored text field, seen through the only questions
`parse_json_field` asks of it: is it blank, does it parse, and to what
value. -/
inductive JsonText
  | blank
  | invalid
  | parsed (v : JVal)

/-- Python exceptions that escape an embedded call. -/
inductive PyError
  | attributeError (msg : String)
  deriving DecidableEq, Repr

def PyError.text : PyError → String
  | PyError.attributeError m => m

/-- Embedding of `parse_json_field` (`app/services/json_fields.py`, lines
17-23): blank input yields the default, unparseable input raises
`JsonFieldError` with a field-specific message. -/
def parse_json_field (raw : JsonText) (dflt : JVal) (field_name : String) :
    Except String JVal :=
  match raw with
  | JsonText.blank => Except.ok dflt
  | JsonText.invalid => Except.error ("Некорректный JSON в поле " ++ field_name)
  | JsonText.parsed v => Except.ok v

structure PostPayload where
  media : List JVal
  buttons : List JVal
  options : List (String × JVal)

/-- Embedding of `parse_post_payload` (lines 26-38): parse the three
fields with defaults `[]`, `[]`, `\x7b\x7d`, then require array / array /
object shapes. -/
def parse_post_payload (media_raw buttons_raw options_raw : JsonText) :
    Except String PostPayload := do
  let media ← parse_json_field media_raw (JVal.arr []) "media"
  let buttons ← parse_json_field buttons_raw (JVal.arr []) "buttons"
  let options ← parse_json_field options_raw (JVal.obj []) "options"
  match media, buttons, options with
  | JVal.arr ms, JVal.arr bs, JVal.obj os =>
      Except.ok { media := ms, buttons := bs, options := os }
  | JVal.arr _, JVal.arr _, _ => Except.error "Поле options должно быть JSON-объектом"
  | JVal.arr _, _, _ => Except.error "Поле buttons должно быть JSON-массивом"
  | _, _, _ => Except.error "Поле media должно быть JSON-массивом"

/-- Python attribute access `value.get(key)`: only a dict has `.get`, any
other value raises `AttributeError`. -/
def jGet (v : JVal) (key : String) : Except PyError (Option JVal) :=
  match v with
  | JVal.obj fs => Except.ok (lookupField fs key)
  | _ => Except.error (PyError.attributeError "get")

/-- One inline-keyboard row, Python `[ \x7b "text": ..., "url": ... \x7d ]`. -/
def KeyboardRow := List (JVal × JVal)

/-- The survivor rows of `build_inline_keyboard`: each button with truthy
`text` and `url` becomes a singleton row; a non-dict entry raises. -/
def keyboardRows : List JVal → Except PyError (List KeyboardRow)
  | [] => Except.ok []
  | b :: rest => do
      let text ← jGet b "text"
      let url ← jGet b "url"
      let tail ← keyboardRows rest
      match text, url with
      | some t, some u =>
          if t.truthy && u.truthy then Except.ok ([(t, u)] :: tail) else Except.ok tail
      | _, _ => Except.ok tail

/-- Embedding of `build_inline_keyboard`
(`app/services/telegram_client.py`, lines 210-219): `None` for an empty
button list or when no button survives the text/url filter. -/
def build_inline_keyboard (buttons : List JVal) :
    Except PyError (Option (List KeyboardRow)) :=
  if buttons.isEmpty then Except.ok none
  else do
    let rows ← keyboardRows buttons
    if rows.isEmpty then Except.ok none else Except.ok (some rows)

/-! The publishing pipeline (`app/services/publishing.py`).  The remote
side of each `TelegramClient` call is abstracted as a `ClientEnv` record
holding the `SendResult` that `_execute` would produce for each method;
the pipeline around those calls is embedded faithfully. -/

/-- Outcomes of the remote calls a single `send_publication` run can
make.  `sendMessage` covers both the text-only send and the media-group
follow-up (at most one `sendMessage` happens per run). -/
structure ClientEnv where
  sendMessage : SendResult
  sendPhoto : SendResult
  sendVideo : SendResult
  sendDocument : SendResult
  sendMediaGroup : SendResult
  pinChatMessage : SendResult
  deriving DecidableEq, Repr

/-- Embedding of `TelegramClient.pin_message`
(`app/services/telegram_client.py`, lines 102-103).  The Python body runs
`_execute("pinChatMessage", ...)` but has no `return` statement, so the
method returns `None` whatever the call produced. -/
def pin_message (env : ClientEnv) : Option SendResult :=
  match env.pinChatMessage with
  | _ => none

/-- Python truthiness of the `message_id` string-or-None. -/
def msgIdTruthy : Option String → Bool
  | none => false
  | some s => s ≠ ""

/-- Embedding of `_pin_if_requested` (`app/services/publishing.py`, lines
28-46).  When a pin is requested the caller reads `pin_result.ok`; since
`pin_message` returns `None`, that attribute access raises
`AttributeError`. -/
def pin_if_requested (env : ClientEnv) (options : List (String × JVal))
    (message_id : Option String) : Except PyError Unit :=
  if !(optTruthy (lookupField options "pin") && msgIdTruthy message_id) then
    Except.ok ()
  else
    match pin_message env with
    | some _ => Except.ok ()
    | none => Except.error (PyError.attributeError "NoneType object has no attribute ok")

/-- The post columns `send_publication` reads. -/
structure PostModel where
  body_html : String
  media : JsonText
  buttons : JsonText
  options : JsonText

/-- Python `item.get("type")` coerced by `(raw_type or "photo").strip()`:
a string passes through, `None` and falsy values fall to the default, and
a truthy non-string would raise `AttributeError` on `.strip()`. -/
def mediaTypeOf (item : JVal) : Except PyError String := do
  let raw ← jGet item "type"
  match raw with
  | none => Except.ok (normalize_media_type none)
  | some (JVal.str s) => Except.ok (normalize_media_type (some s))
  | some v =>
      if v.truthy then Except.error (PyError.attributeError "strip")
      else Except.ok (normalize_media_type none)

/-- Embedding of `_send_single_media` (lines 70-94): pick the client
method from the normalized media type of the single item. -/
def send_single_media (env : ClientEnv) (item : JVal) : Except PyError SendResult := do
  let mt ← mediaTypeOf item
  let _ ← jGet item "url"
  if mt = "photo" then Except.ok env.sendPhoto
  else if mt = "video" then Except.ok env.sendVideo
  else Except.ok env.sendDocument

/-- The group-item construction loop of `_send_media_group` (lines
105-111): each item is asked for its type and url, which can raise. -/
def buildGroupItems : List JVal → Except PyError Unit
  | [] => Except.ok ()
  | item :: rest => do
      let _ ← mediaTypeOf item
      let _ ← jGet item "url"
      buildGroupItems rest

/-- Embedding of `_send_media_group` (lines 97-134): send the group; on
success, when a keyboard is present send the follow-up text message and
report its id; either failure is returned as-is, and the successful
result is a fresh `SendResult(ok=True, message_id=final_message_id)`. -/
def send_media_group_path (env : ClientEnv) (media : List JVal)
    (keyboard : Option (List KeyboardRow)) : Except PyError SendResult := do
  let _ ← buildGroupItems media
  let group_result := env.sendMediaGroup
  if !group_result.ok then Except.ok group_result
  else
    match keyboard with
    | none => Except.ok { ok := true, message_id := group_result.message_id }
    | some _ =>
        let follow_result := env.sendMessage
        if !follow_result.ok then Except.ok follow_result
        else Except.ok { ok := true, message_id := follow_result.message_id }

/-- Embedding of `send_publication` (`app/services/publishing.py`, lines
137-182).  `JsonFieldError` from payload parsing is caught and mapped to
a non-retryable failure; the keyboard build (line 154) runs outside the
`try` block, so its exception propagates; inside the `try` block the
media-count dispatch, result check and pin attempt run, and any exception
there is caught and mapped to a retryable `unexpected_error` result. -/
def send_publication (env : ClientEnv) (post : PostModel) : Except PyError SendResult :=
  match parse_post_payload post.media post.buttons post.options with
  | Except.error msg =>
      Except.ok { ok := false, error := some msg, retryable := false }
  | Except.ok payload =>
      match build_inline_keyboard payload.buttons with
      | Except.error e => Except.error e
      | Except.ok keyboard =>
          let tryBody : Except PyError SendResult := do
            let result ←
              if payload.media.length = 0 then
                Except.ok env.sendMessage
              else if payload.media.length = 1 then
                send_single_media env (payload.media.headD JVal.null)
              else
                send_media_group_path env payload.media keyboard
            if !result.ok then Except.ok result
            else do
              let _ ← pin_if_requested env payload.options result.message_id
              Except.ok result
          match tryBody with
          | Except.ok r => Except.ok r
          | Except.error e =>
              Except.ok { ok := false, error := some ("unexpected_error: " ++ e.text) }

/-- Embedding of `get_retry_ready_at` (`app/services/publishing.py`,
lines 185-187): the retry status paired with `now` plus
`max(default_retry_minutes * 60, retry_after_seconds or 0)`. -/
def get_retry_ready_at (default_retry_minutes : Int) (retry_after_seconds : Option Int)
    (now : Int) : String × Int :=
  let retry_delay := max (default_retry_minutes * 60) (retry_after_seconds.getD 0)
  ("retry", now + retry_delay)

/-! The worker (`app/worker.py`).  Configuration values come from
`app/config.py`; a worker iteration is decomposed into the stuck-lease
sweep, the claim update, and the processing of one claimed row. -/

structure WorkerConfig where
  max_attempts : Nat
  default_retry_minutes : Int
  processing_ttl : Int
  deriving DecidableEq, Repr

/-- Default configuration (`app/config.py`, lines 14-17). -/
def defaultConfig : WorkerConfig :=
  { max_attempts := 5, default_retry_minutes := 30, processing_ttl := 900 }

/-- The filter of `recover_stuck_publications` (`app/worker.py`, lines
22-26): in `processing`, lease present and at least `PROCESSING_TTL`
old, attempts below the cap. -/
def stuckMatch (cfg : WorkerConfig) (now : Int) (p : Publication) : Bool :=
  p.status == PubStatus.processing &&
  (match p.locked_at with
   | some t => decide (t ≤ now - cfg.processing_ttl)
   | none => false) &&
  p.attempts < cfg.max_attempts

/-- The update dict of `recover_stuck_publications` (lines 27-35) applied
to one row.  Note that the source writes `"locked_by": worker_id`, not
`None`. -/
def applyRecover (cfg : WorkerConfig) (now : Int) (worker_id : String)
    (p : Publication) : Publication :=
  if stuckMatch cfg now p then
    { p with status := PubStatus.retry, ready_at := now, locked_at := none,
             locked_by := some worker_id, last_error := some "processing_ttl_expired" }
  else p

/-- Embedding of `recover_stuck_publications` (lines 18-45) over the set
of Publication rows. -/
def recover_stuck_publications (cfg : WorkerConfig) (now : Int) (worker_id : String)
    (pubs : List Publication) : List Publication :=
  pubs.map (applyRecover cfg now worker_id)

/-- The conditional claim update (`app/worker.py`, lines 86-92), applied
to a row it matched: `status='processing'`, lock taken. -/
def claimPublication (now : Int) (worker_id : String) (p : Publication) : Publication :=
  { p with status := PubStatus.processing, locked_at := some now,
           locked_by := some worker_id }

/-- Audit rows the worker writes while processing
(`app/services/audit.py` via `log_action`). -/
inductive AuditEntry
  | send (message_id : Option String)
  | fail (error : Option String)
  | retry (error : Option String) (delay_seconds : Int)
  deriving DecidableEq, Repr

/-- State of the claimed row, its owning post, and the post's other
publications, as the processing step sees and updates them. -/
structure ProcState where
  pub : Publication
  post_status : PostStatus
  siblings : List Publication
  deriving DecidableEq, Repr

def nonTerminalStatus (s : PubStatus) : Bool :=
  s == PubStatus.scheduled || s == PubStatus.retry || s == PubStatus.processing

/-- The `pending` count of `run_worker` (lines 142-146): publications of
the post whose status is in `scheduled`, `retry`, `processing`. -/
def pendingCount (pubs : List Publication) : Nat :=
  (pubs.filter (fun p => nonTerminalStatus p.status)).length

/-- Outcome of processing one claimed row: either the state the final
commit writes together with the audit rows added, or a crash — an
exception that escapes `run_worker`, leaving the row as the claim commit
left it. -/
inductive StepResult
  | committed (s : ProcState) (audits : List AuditEntry)
  | crashed (s : ProcState) (e : PyError)
  deriving DecidableEq, Repr

def StepResult.state : StepResult → ProcState
  | StepResult.committed s _ => s
  | StepResult.crashed s _ => s

def StepResult.isCrashed : StepResult → Bool
  | StepResult.committed _ _ => false
  | StepResult.crashed _ _ => true

/-- Embedding of the per-row processing of `run_worker` (`app/worker.py`,
lines 101-192), starting from the reloaded claimed row `s.pub`.  A row
that already has `telegram_message_id` is completed idempotently.
Otherwise `send_publication` runs: if it raises, the exception escapes
(there is no handler in `run_worker`) and the database keeps the claimed
row; on a returned result the success / failed / retry transitions update
the row, the post status, and the audit log exactly as the source does —
in particular `locked_by` is set to `worker_id`, not cleared. -/
def process_claimed (cfg : WorkerConfig) (now : Int) (worker_id : String)
    (env : ClientEnv) (post : PostModel) (s : ProcState) : StepResult :=
  let pub := s.pub
  if pub.telegram_message_id.isSome then
    StepResult.committed
      { s with pub := { pub with status := PubStatus.sent, sent_at := some now } } []
  else
    match send_publication env post with
    | Except.error e => StepResult.crashed s e
    | Except.ok result =>
        if result.ok then
          let pub' := { pub with
                        status := PubStatus.sent,
                        telegram_message_id := result.message_id,
                        sent_at := some now, last_error := none,
                        locked_at := none, locked_by := some worker_id }
          let pending := pendingCount (pub' :: s.siblings)
          let post' := if pending = 0 then PostStatus.sent else s.post_status
          StepResult.committed
            { pub := pub', post_status := post', siblings := s.siblings }
            [AuditEntry.send result.message_id]
        else
          let attempts' := pub.attempts + 1
          let base := { pub with
                        attempts := attempts', last_error := result.error,
                        locked_at := none, locked_by := some worker_id }
          if !result.retryable || attempts' ≥ cfg.max_attempts then
            StepResult.committed
              { pub := { base with status := PubStatus.failed },
                post_status := PostStatus.failed, siblings := s.siblings }
              [AuditEntry.fail result.error]
          else
            let retry_delay := max (cfg.default_retry_minutes * 60)
              (result.retry_after_seconds.getD 0)
            StepResult.committed
              { pub := { base with
                         status := PubStatus.retry,
                         ready_at := now + retry_delay },
                post_status := s.post_status, siblings := s.siblings }
              [AuditEntry.retry result.error retry_delay]

/-! Slot calculation (`app/services/scheduling.py`).  Instants are
integer seconds of naive time; `replace(hour=0, minute=0, second=0,
microsecond=0)` and `date()` become flooring to the containing UTC
calendar day.  The timezone conversions and the per-day publication
count, which the source obtains from `app/utils/timezone.py` and the
database, enter as abstract functions; `now_utc_naive()` is a fixed
instant for the duration of the call. -/

structure SlotEnv where
  now : Int
  utcToLocal : Int → Int
  localToUtc : Int → Int
  dayCount : Int → Nat

/-- Floor of an instant to the start of its calendar day. -/
def floorDay (t : Int) : Int :=
  (Int.ediv t 86400) * 86400

/-- The 365-iteration loop of `calculate_next_slot` (lines 22-42): the
candidate is the planned instant plus the day's publication count in
seconds; it is returned when strictly after now, else the planned instant
advances one day; exhausted fuel yields the fallback `(now + 1 minute,
0)`. -/
def nextSlotLoop (env : SlotEnv) : Nat → Int → Int × Nat
  | 0, _ => (env.now + 60, 0)
  | Nat.succ fuel, planned_utc =>
      let day_start := floorDay planned_utc
      let slot_index := env.dayCount day_start
      let candidate := planned_utc + slot_index
      if env.now < candidate then (candidate, slot_index)
      else nextSlotLoop env fuel (planned_utc + 86400)

/-- Embedding of `calculate_next_slot` (`app/services/scheduling.py`,
lines 14-42): today's `daily_time` in channel-local time, advanced one
day when not strictly in the local future, converted to UTC, then the
365-iteration candidate search. -/
def calculate_next_slot (env : SlotEnv) (daily_seconds : Int) : Int × Nat :=
  let now_local := env.utcToLocal env.now
  let base0 := floorDay now_local + daily_seconds
  let base_local := if base0 ≤ now_local then base0 + 86400 else base0
  let planned_utc := env.localToUtc base_local
  nextSlotLoop env 365 planned_utc

/-! Concrete fixtures used by the closed evaluation theorems below. -/

/-- A successful remote send carrying message id 42 (scenario S1). -/
def okSendResult : SendResult := { ok := true, message_id := some "42" }

/-- Remote environment in which every send succeeds, including the pin. -/
def sendOkEnv : ClientEnv :=
  { sendMessage := okSendResult, sendPhoto := okSendResult, sendVideo := okSendResult,
    sendDocument := okSendResult, sendMediaGroup := okSendResult,
    pinChatMessage := { ok := true } }

/-- A 429 rate-limit outcome carrying `retry_after = 120` (scenario S2). -/
def rateLimitResult : SendResult :=
  { ok := false, error := some "Too Many Requests",
    retry_after_seconds := some 120, retryable := true }

/-- Remote environment producing the rate-limit outcome on every send. -/
def rateLimitEnv : ClientEnv :=
  { sendMessage := rateLimitResult, sendPhoto := rateLimitResult,
    sendVideo := rateLimitResult, sendDocument := rateLimitResult,
    sendMediaGroup := rateLimitResult, pinChatMessage := { ok := true } }

/-- A non-retryable 400 outcome (scenario S3). -/
def chatNotFoundResult : SendResult :=
  { ok := false, error := some "Bad Request: chat not found", retryable := false }

/-- Remote environment producing the 400 outcome on every send. -/
def chatNotFoundEnv : ClientEnv :=
  { sendMessage := chatNotFoundResult, sendPhoto := chatNotFoundResult,
    sendVideo := chatNotFoundResult, sendDocument := chatNotFoundResult,
    sendMediaGroup := chatNotFoundResult, pinChatMessage := { ok := true } }

/-- A plain text post: no media, no buttons, no options. -/
def samplePost : PostModel :=
  { body_html := "hi", media := JsonText.parsed (JVal.arr []),
    buttons := JsonText.parsed (JVal.arr []),
    options := JsonText.parsed (JVal.obj []) }

/-- The text post with `options = \x7b"pin": true\x7d`. -/
def pinOptionPost : PostModel :=
  { samplePost with options := JsonText.parsed (JVal.obj [("pin", JVal.bool true)]) }

/-- A post whose `buttons` column holds the valid JSON array `[1]`: the
entry is not an object, so `build_inline_keyboard` raises
`AttributeError` on `button.get`. -/
def badButtonsPost : PostModel :=
  { samplePost with buttons := JsonText.parsed (JVal.arr [JVal.num 1]) }

/-- A freshly scheduled publication row. -/
def basePub : Publication :=
  { id := 1, post_id := 7, planned_at := 0, ready_at := 0,
    status := PubStatus.scheduled, attempts := 0, locked_at := none,
    locked_by := none, telegram_message_id := none, sent_at := none,
    last_error := none }

/-- A second publication of the same post. -/
def siblingPub : Publication := { basePub with id := 2 }

/-- Claimed state of `basePub` with no siblings. -/
def claimedState : ProcState :=
  { pub := claimPublication 100 "worker-1" basePub,
    post_status := PostStatus.scheduled, siblings := [] }

/-- Step one of the mixed-outcome scenario: `basePub` is claimed and its
send fails non-retryably while `siblingPub` is still scheduled. -/
def mixedStepOne : StepResult :=
  process_claimed defaultConfig 100 "worker-1" chatNotFoundEnv samplePost
    { pub := claimPublication 100 "worker-1" basePub,
      post_status := PostStatus.scheduled, siblings := [siblingPub] }

/-- Step two of the mixed-outcome scenario: after step one, `siblingPub`
is claimed and its send succeeds; the failed row rides along as a
sibling. -/
def mixedStepTwo : StepResult :=
  process_claimed defaultConfig 200 "worker-1" sendOkEnv samplePost
    { pub := claimPublication 200 "worker-1" siblingPub,
      post_status := mixedStepOne.state.post_status,
      siblings := [mixedStepOne.state.pub] }

/-! Theorems. -/

/-- Every iteration of the slot loop returns an instant strictly after
`now`: either the accepted candidate, or the `now + 60` fallback. -/
theorem nextSlotLoop_gt (env : SlotEnv) (fuel : Nat) :
    ∀ planned : Int, env.now < (nextSlotLoop env fuel planned).1 := by
  induction fuel with
  | zero =>
      intro planned
      simp only [nextSlotLoop]
      omega
  | succ n ih =>
      intro planned
      simp only [nextSlotLoop]
      split
      · next h => exact h
      · exact ih _

/-- C6: `calculate_next_slot` follows the transcribed algorithm — base
instant from the channel-local `daily_time` (advanced one day when not in
the strict local future) converted to UTC, then up to 365 candidates
`planned + slot_index` with `slot_index` the count of publications in
that UTC day, accepted when strictly after now, with fallback
`(now + 60, 0)` — so every return path yields a planned instant strictly
in the future. -/
theorem calculate_next_slot_strictly_future (env : SlotEnv) (daily_seconds : Int) :
    env.now < (calculate_next_slot env daily_seconds).1 := by
  simp only [calculate_next_slot]
  exact nextSlotLoop_gt env 365 _

/-- C7: the stuck-lease sweep touches only `status`, `ready_at`,
`locked_at`, `locked_by` and `last_error`; in particular a restored
row keeps its `attempts` counter and its `planned_at` (a hung send does
not consume retry budget), and its identity, message id and `sent_at`
are untouched.  This holds for every row, matched by the sweep or not. -/
theorem recover_stuck_frame (cfg : WorkerConfig) (now : Int) (worker_id : String)
    (p : Publication) :
    (applyRecover cfg now worker_id p).attempts = p.attempts ∧
    (applyRecover cfg now worker_id p).planned_at = p.planned_at ∧
    (applyRecover cfg now worker_id p).id = p.id ∧
    (applyRecover cfg now worker_id p).post_id = p.post_id ∧
    (applyRecover cfg now worker_id p).telegram_message_id = p.telegram_message_id ∧
    (applyRecover cfg now worker_id p).sent_at = p.sent_at := by
  unfold applyRecover
  split <;> simp

/-- C9 counterexample: a network exception with text `"timeout"` yields
`ok = false` and `retryable = true`, but the error string is the plain
exception text — it does not begin with `network_error:`. -/
theorem network_error_no_marker :
    (classify_execute_exception (TgException.networkError "timeout")).ok = false ∧
    (classify_execute_exception (TgException.networkError "timeout")).retryable = true ∧
    (classify_execute_exception (TgException.networkError "timeout")).error = some "timeout" ∧
    "network_error:".data.isPrefixOf
      (((classify_execute_exception (TgException.networkError "timeout")).error.getD "").data)
      = false := by
  decide

/-- C9 amended: for every network-level exception the client returns
`ok = false`, `retryable = true`, and `error = str(exc)` (replaced by the
fixed channel-permission message when the text mentions the bot not being
a channel member); no `network_error:` marker is added. -/
theorem network_error_classification (t : String) :
    classify_execute_exception (TgException.networkError t) = parse_tg_error t true ∧
    (classify_execute_exception (TgException.networkError t)).ok = false ∧
    (classify_execute_exception (TgException.networkError t)).retryable = true ∧
    (classify_execute_exception (TgException.networkError t)).error =
      some (if hasSub "bot is not a member of the channel chat".data (pyToLower t).data
            then channelMemberMsg else t) := by
  refine ⟨rfl, rfl, rfl, ?_⟩
  simp only [classify_execute_exception, parse_tg_error]

/-- Branch lemma: a value starting with `@` classifies to itself. -/
theorem classifyChatId_at (v : String) (h : v.data.head? = some '@') :
    classifyChatId v = v := by
  unfold classifyChatId
  rw [if_pos h]

/-- Branch lemma: a numeric value classifies to itself. -/
theorem classifyChatId_digit (v : String) (h : pyLstripMinusIsDigit v = true) :
    classifyChatId v = v := by
  unfold classifyChatId
  by_cases hh : v.data.head? = some '@'
  · rw [if_pos hh]
  · rw [if_neg hh, if_pos h]

/-- Branch lemma: a value failing the digit test and the name regex, and
not starting with `@`, classifies to itself. -/
theorem classifyChatId_verbatim (v : String) (h1 : v.data.head? ≠ some '@')
    (h2 : pyLstripMinusIsDigit v = false) (h3 : chatNameMatch v = false) :
    classifyChatId v = v := by
  unfold classifyChatId
  rw [if_neg h1, h2, h3]
  simp

/-- The classifier is idempotent: each branch returns either the input
itself or an `@`-initial string, and `@`-initial strings are returned
as-is. -/
theorem classifyChatId_idem (v : String) :
    classifyChatId (classifyChatId v) = classifyChatId v := by
  by_cases h1 : v.data.head? = some '@'
  · rw [classifyChatId_at v h1]
    exact classifyChatId_at v h1
  · by_cases h2 : pyLstripMinusIsDigit v = true
    · rw [classifyChatId_digit v h2]
      exact classifyChatId_digit v h2
    · by_cases h3 : chatNameMatch v = true
      · have hv : classifyChatId v = String.mk ('@' :: v.data) := by
          unfold classifyChatId
          rw [if_neg h1, Bool.eq_false_iff.mpr h2, h3]
          simp
        rw [hv]
        exact classifyChatId_at _ rfl
      · rw [classifyChatId_verbatim v h1 (Bool.eq_false_iff.mpr h2) (Bool.eq_false_iff.mpr h3)]
        exact classifyChatId_verbatim v h1 (Bool.eq_false_iff.mpr h2) (Bool.eq_false_iff.mpr h3)

/-- C8 counterexample: `normalize_chat_id` is not idempotent.  The loop
strips each `t.me` head at most once per call, so for the input
`"t.me/t.me/ab"` the first call yields `"t.me/ab"` and a second call
strips further, to `"ab"`. -/
theorem normalize_chat_id_not_idem :
    normalize_chat_id (normalize_chat_id "t.me/t.me/ab")
      ≠ normalize_chat_id "t.me/t.me/ab" := by
  decide

/-- C8 amended: `normalize_chat_id` is idempotent on every input whose
normalized value is left unchanged by whitespace stripping and by one
pass of `t.me` head stripping; nested heads such as `"t.me/t.me/ab"`
(or heads exposing leading whitespace) are the only failures of L3. -/
theorem normalize_chat_id_idem_of_stable (x : String)
    (h1 : pyStrip (normalize_chat_id x) = normalize_chat_id x)
    (h2 : stripTMeHeads (normalize_chat_id x) = normalize_chat_id x) :
    normalize_chat_id (normalize_chat_id x) = normalize_chat_id x := by
  conv_lhs => rw [normalize_chat_id, h1, h2]
  exact classifyChatId_idem _

/-- C8 amended witness at the stable input `"abcde"`. -/
theorem normalize_chat_id_idem_witness :
    normalize_chat_id (normalize_chat_id "abcde") = normalize_chat_id "abcde" :=
  normalize_chat_id_idem_of_stable "abcde" (by decide) (by decide)

/-- Helper: resolving the default zone never yields the UTC singleton,
because the fixed-offset dict always holds a stand-in for it. -/
theorem resolve_default_ne_utc (zdb : String → Bool) :
    resolve_timezone zdb DEFAULT_TIMEZONE ≠ TZ.utc := by
  unfold resolve_timezone DEFAULT_TIMEZONE FALLBACK_FIXED_OFFSETS
  split <;> simp

/-- C10: a timezone name absent from the zoneinfo database (other than
`"UTC"` itself) makes `get_zoneinfo` fall back to resolving the default
`"Europe/Moscow"`; when the default is itself absent, the result is the
hard-coded fixed UTC+3 zone named `"Europe/Moscow"`, not UTC; the UTC
singleton is only ever returned for the name `"UTC"`; and the fixed-offset
stand-in has a constant offset of 10800 seconds, ignoring DST. -/
theorem get_zoneinfo_fallback_chain (zdb : String → Bool) (name : String)
    (hmiss : zdb name = false) (hutc : name ≠ "UTC")
    (hnorm : normalizeTzName (some name) = name) :
    get_zoneinfo zdb (some name) = resolve_timezone zdb DEFAULT_TIMEZONE ∧
    (zdb DEFAULT_TIMEZONE = false →
      get_zoneinfo zdb (some name) = TZ.fixedOffset "Europe/Moscow" 3) ∧
    (∀ tz_name, get_zoneinfo zdb tz_name = TZ.utc → normalizeTzName tz_name = "UTC") ∧
    (∀ ofs t t', TZ.offsetAt ofs t (TZ.fixedOffset "Europe/Moscow" 3)
        = TZ.offsetAt ofs t' (TZ.fixedOffset "Europe/Moscow" 3) ∧
      TZ.offsetAt ofs t (TZ.fixedOffset "Europe/Moscow" 3) = 10800) := by
  have hmain : get_zoneinfo zdb (some name) = resolve_timezone zdb DEFAULT_TIMEZONE := by
    simp only [get_zoneinfo]
    rw [hnorm]
    by_cases hdef : name = DEFAULT_TIMEZONE
    · subst hdef
      rw [if_pos (Or.inl (resolve_default_ne_utc zdb))]
    · have hres : resolve_timezone zdb name = TZ.utc := by
        unfold resolve_timezone FALLBACK_FIXED_OFFSETS
        rw [hmiss]
        simp only [DEFAULT_TIMEZONE] at hdef
        simp [hdef]
      rw [hres]
      rw [if_neg (by simp [hutc])]
      rw [if_pos hdef]
  refine ⟨hmain, ?_, ?_, ?_⟩
  · intro hdefmiss
    rw [hmain]
    unfold resolve_timezone
    rw [hdefmiss]
    simp [FALLBACK_FIXED_OFFSETS, DEFAULT_TIMEZONE]
  · intro tzn hu
    simp only [get_zoneinfo] at hu
    by_cases hn : normalizeTzName tzn = "UTC"
    · exact hn
    · exfalso
      by_cases hr : resolve_timezone zdb (normalizeTzName tzn) = TZ.utc
      · rw [if_neg (by simp [hr, hn])] at hu
        by_cases hd : normalizeTzName tzn = DEFAULT_TIMEZONE
        · rw [hd] at hr
          exact resolve_default_ne_utc zdb hr
        · rw [if_pos hd] at hu
          exact resolve_default_ne_utc zdb hu
      · rw [if_pos (Or.inl hr)] at hu
        exact hr hu
  · intro ofs t t'
    exact ⟨rfl, rfl⟩

/-- C10 witness: with an empty zoneinfo database, an unknown name
resolves through the default to the fixed UTC+3 stand-in. -/
theorem get_zoneinfo_fallback_witness :
    get_zoneinfo (fun _ => false) (some "Asia/Tokyo")
        = resolve_timezone (fun _ => false) DEFAULT_TIMEZONE ∧
    get_zoneinfo (fun _ => false) (some "Asia/Tokyo")
        = TZ.fixedOffset "Europe/Moscow" 3 := by
  have h := get_zoneinfo_fallback_chain (fun _ => false) "Asia/Tokyo" rfl
    (by decide) (by decide)
  exact ⟨h.1, h.2.1 rfl⟩

/-- C5: a claimed publication whose send returns a retryable failure
while the incremented attempts stay below the cap moves to `retry` with
`ready_at = now + max(default_retry_minutes * 60, retry_after_seconds or
0)`, the delay also being what `get_retry_ready_at` computes; with the
default 30 minutes, a 429 carrying `retry_after = 120` delays exactly
1800 seconds. -/
theorem retry_backoff_delay (cfg : WorkerConfig) (now : Int) (worker_id : String)
    (env : ClientEnv) (post : PostModel) (s : ProcState) (r : SendResult)
    (hsend : send_publication env post = Except.ok r)
    (hmid : s.pub.telegram_message_id = none)
    (hok : r.ok = false) (hretry : r.retryable = true)
    (hcap : s.pub.attempts + 1 < cfg.max_attempts) :
    process_claimed cfg now worker_id env post s =
      StepResult.committed
        { pub := { s.pub with
                   status := PubStatus.retry,
                   attempts := s.pub.attempts + 1, last_error := r.error,
                   locked_at := none, locked_by := some worker_id,
                   ready_at := now + max (cfg.default_retry_minutes * 60)
                     (r.retry_after_seconds.getD 0) },
          post_status := s.post_status, siblings := s.siblings }
        [AuditEntry.retry r.error
          (max (cfg.default_retry_minutes * 60) (r.retry_after_seconds.getD 0))] ∧
    (get_retry_ready_at cfg.default_retry_minutes r.retry_after_seconds now).2 =
      now + max (cfg.default_retry_minutes * 60) (r.retry_after_seconds.getD 0) ∧
    (cfg.default_retry_minutes = 30 → r.retry_after_seconds = some 120 →
      max (cfg.default_retry_minutes * 60) (r.retry_after_seconds.getD 0) = 1800) := by
  refine ⟨?_, rfl, ?_⟩
  · simp only [process_claimed, hmid, hsend, hok, hretry, Option.isSome_none,
      Bool.false_eq_true, if_false, Bool.not_true, Bool.false_or]
    rw [if_neg (by simp only [decide_eq_true_eq]; omega)]
  · intro h30 h120
    rw [h30, h120]
    rfl

/-- C5 witness: scenario S2 at the defaults — a 429 with
`retry_after = 120` at `now = 1000` reschedules to `ready_at = 2800`,
an 1800-second delay. -/
theorem retry_backoff_witness :
    (process_claimed defaultConfig 1000 "worker-1" rateLimitEnv samplePost
      claimedState).state.pub.ready_at = 2800 ∧
    (process_claimed defaultConfig 1000 "worker-1" rateLimitEnv samplePost
      claimedState).state.pub.status = PubStatus.retry ∧
    (process_claimed defaultConfig 1000 "worker-1" rateLimitEnv samplePost
      claimedState).state.pub.attempts = 1 := by
  have h := retry_backoff_delay defaultConfig 1000 "worker-1" rateLimitEnv samplePost
    claimedState rateLimitEnv.sendMessage rfl rfl rfl rfl (by decide)
  rw [h.1]
  refine ⟨by decide, by decide, by decide⟩

/-- C4 counterexample: a successful send takes the row from `processing`
to `sent` with `locked_at` cleared but `locked_by` set to the worker id —
not null, contradicting the claim that both lock fields become null. -/
theorem completion_locked_by_not_null :
    (process_claimed defaultConfig 1000 "worker-1" sendOkEnv samplePost
      claimedState).state.pub.status = PubStatus.sent ∧
    (process_claimed defaultConfig 1000 "worker-1" sendOkEnv samplePost
      claimedState).state.pub.locked_at = none ∧
    (process_claimed defaultConfig 1000 "worker-1" sendOkEnv samplePost
      claimedState).state.pub.locked_by ≠ none := by
  refine ⟨by decide, by decide, by decide⟩

/-- C4 amended: every send-result transition out of `processing`
(completion to sent, failure to failed, retry scheduling) and the
stuck-lease sweep set `locked_at` to null and `locked_by` to the acting
worker's id, a non-null string; the idempotent already-sent completion
leaves both lock fields untouched. -/
theorem lock_fields_after_transition (cfg : WorkerConfig) (now : Int)
    (worker_id : String) (env : ClientEnv) (post : PostModel) (s : ProcState)
    (r : SendResult) :
    (send_publication env post = Except.ok r → s.pub.telegram_message_id = none →
      (process_claimed cfg now worker_id env post s).state.pub.locked_at = none ∧
      (process_claimed cfg now worker_id env post s).state.pub.locked_by
        = some worker_id) ∧
    (∀ p, stuckMatch cfg now p = true →
      (applyRecover cfg now worker_id p).locked_at = none ∧
      (applyRecover cfg now worker_id p).locked_by = some worker_id) ∧
    (s.pub.telegram_message_id.isSome = true →
      (process_claimed cfg now worker_id env post s).state.pub.locked_at
        = s.pub.locked_at ∧
      (process_claimed cfg now worker_id env post s).state.pub.locked_by
        = s.pub.locked_by) := by
  refine ⟨?_, ?_, ?_⟩
  · intro hsend hmid
    simp only [process_claimed, hsend, hmid, Option.isSome_none,
      Bool.false_eq_true, if_false]
    by_cases hok : r.ok = true
    · simp [hok, StepResult.state]
    · rw [if_neg hok]
      split <;> simp [StepResult.state]
  · intro p hp
    simp [applyRecover, hp]
  · intro hmid
    simp [process_claimed, hmid, StepResult.state]

/-- C4 amended witness: the concrete successful completion clears
`locked_at` and stamps `locked_by` with the worker id. -/
theorem lock_fields_witness :
    (process_claimed defaultConfig 1000 "worker-1" sendOkEnv samplePost
      claimedState).state.pub.locked_at = none ∧
    (process_claimed defaultConfig 1000 "worker-1" sendOkEnv samplePost
      claimedState).state.pub.locked_by = some "worker-1" :=
  (lock_fields_after_transition defaultConfig 1000 "worker-1" sendOkEnv samplePost
    claimedState sendOkEnv.sendMessage).1 rfl rfl

/-- C3 counterexample: in the mixed-outcome scenario one publication
fails non-retryably (post marked failed), then the sibling publication is
sent successfully.  Afterwards no non-terminal publication remains and a
failed, non-canceled publication exists, yet the post status is `sent`:
the last transition wins, failed does not dominate. -/
theorem post_status_not_dominant :
    mixedStepOne.state.pub.status = PubStatus.failed ∧
    mixedStepOne.state.post_status = PostStatus.failed ∧
    mixedStepTwo.state.pub.status = PubStatus.sent ∧
    mixedStepTwo.state.siblings = [mixedStepOne.state.pub] ∧
    pendingCount (mixedStepTwo.state.pub :: mixedStepTwo.state.siblings) = 0 ∧
    mixedStepTwo.state.post_status = PostStatus.sent ∧
    mixedStepTwo.state.post_status ≠ PostStatus.failed := by
  decide

/-- C3 amended: the post status reflects the most recent worker
transition — a failure sets it to `failed` immediately; a success sets it
to `sent` exactly when no non-terminal publication remains, even when a
failed sibling exists; a retry leaves it unchanged. -/
theorem post_status_transitions (cfg : WorkerConfig) (now : Int)
    (worker_id : String) (env : ClientEnv) (post : PostModel) (s : ProcState)
    (r : SendResult) :
    (send_publication env post = Except.ok r → s.pub.telegram_message_id = none →
      r.ok = false → (¬ r.retryable = true ∨ s.pub.attempts + 1 ≥ cfg.max_attempts) →
      (process_claimed cfg now worker_id env post s).state.post_status
        = PostStatus.failed) ∧
    (send_publication env post = Except.ok r → s.pub.telegram_message_id = none →
      r.ok = true →
      (process_claimed cfg now worker_id env post s).state.post_status
        = (if pendingCount ((process_claimed cfg now worker_id env post s).state.pub
              :: s.siblings) = 0
           then PostStatus.sent else s.post_status)) ∧
    (send_publication env post = Except.ok r → s.pub.telegram_message_id = none →
      r.ok = false → r.retryable = true → s.pub.attempts + 1 < cfg.max_attempts →
      (process_claimed cfg now worker_id env post s).state.post_status
        = s.post_status) := by
  refine ⟨?_, ?_, ?_⟩
  · intro hsend hmid hok hcap
    simp only [process_claimed, hsend, hmid, hok, Option.isSome_none,
      Bool.false_eq_true, if_false]
    have hcond : (!r.retryable || decide (s.pub.attempts + 1 ≥ cfg.max_attempts))
        = true := by
      rcases hcap with h | h
      · simp [Bool.not_eq_true] at h
        simp [h]
      · simp [h]
    rw [if_pos hcond]
    rfl
  · intro hsend hmid hok
    simp [process_claimed, hsend, hmid, hok, StepResult.state]
  · intro hsend hmid hok hretry hcap
    simp only [process_claimed, hsend, hmid, hok, hretry, Option.isSome_none,
      Bool.false_eq_true, if_false, Bool.not_true, Bool.false_or]
    rw [if_neg (by simp only [decide_eq_true_eq]; omega)]
    rfl

/-- C3 amended witness: the failure transition of the mixed scenario
marks the post failed. -/
theorem post_status_transitions_witness :
    mixedStepOne.state.post_status = PostStatus.failed :=
  (post_status_transitions defaultConfig 100 "worker-1" chatNotFoundEnv samplePost
    { pub := claimPublication 100 "worker-1" basePub,
      post_status := PostStatus.scheduled, siblings := [siblingPub] }
    chatNotFoundEnv.sendMessage).1 rfl rfl rfl (Or.inl (by decide))

/-- C2 counterexample: the stored `buttons` column holds the valid JSON
array `[1]`, so `build_inline_keyboard` — which runs outside the `try`
block of `send_publication` — raises `AttributeError`.  `run_worker` has
no handler, the exception escapes, and the claimed row is left in
`processing`. -/
theorem keyboard_exception_leaves_processing :
    (process_claimed defaultConfig 1000 "worker-1" sendOkEnv badButtonsPost
      claimedState).isCrashed = true ∧
    (process_claimed defaultConfig 1000 "worker-1" sendOkEnv badButtonsPost
      claimedState).state.pub.status = PubStatus.processing := by
  decide

/-- C2 amended: whenever `send_publication` returns a result (its `try`
block converts every exception inside the client calls and the pin
attempt into a failed `SendResult`), the worker moves the claimed row out
of `processing`; but when `send_publication` raises, the exception
escapes `run_worker` and the database keeps the claimed `processing`
row, which only a later stuck-lease sweep restores to `retry`. -/
theorem worker_exception_boundary (cfg : WorkerConfig) (now : Int)
    (worker_id : String) (env : ClientEnv) (post : PostModel) (s : ProcState)
    (r : SendResult) :
    (send_publication env post = Except.ok r →
      (process_claimed cfg now worker_id env post s).isCrashed = false ∧
      (process_claimed cfg now worker_id env post s).state.pub.status
        ≠ PubStatus.processing) ∧
    ((process_claimed cfg now worker_id env post s).isCrashed = true →
      (process_claimed cfg now worker_id env post s).state = s) ∧
    (∀ p, stuckMatch cfg now p = true →
      (applyRecover cfg now worker_id p).status = PubStatus.retry) := by
  refine ⟨?_, ?_, ?_⟩
  · intro hsend
    by_cases hmid : s.pub.telegram_message_id.isSome = true
    · simp [process_claimed, hmid, StepResult.isCrashed, StepResult.state]
    · simp only [process_claimed, hmid, hsend, Bool.not_eq_true] at *
      simp only [hmid, Bool.false_eq_true, if_false]
      by_cases hok : r.ok = true
      · simp [hok, StepResult.isCrashed, StepResult.state]
      · rw [if_neg hok]
        split <;> simp [StepResult.isCrashed, StepResult.state]
  · intro hcr
    by_cases hmid : s.pub.telegram_message_id.isSome = true
    · simp [process_claimed, hmid, StepResult.isCrashed] at hcr
    · cases hsd : send_publication env post with
      | error e =>
          simp [process_claimed, hmid, hsd, StepResult.state]
      | ok r' =>
          exfalso
          simp only [process_claimed, hmid, hsd, Bool.not_eq_true] at hcr
          simp only [Bool.false_eq_true, if_false] at hcr
          by_cases hok : r'.ok = true
          · simp [hok, StepResult.isCrashed] at hcr
          · rw [if_neg hok] at hcr
            split at hcr <;> simp [StepResult.isCrashed] at hcr
  · intro p hp
    simp [applyRecover, hp]

/-- C2 amended witness: a returned send result at the concrete fixture
leaves the row out of `processing`. -/
theorem worker_exception_boundary_witness :
    (process_claimed defaultConfig 1000 "worker-1" sendOkEnv samplePost
      claimedState).state.pub.status ≠ PubStatus.processing :=
  ((worker_exception_boundary defaultConfig 1000 "worker-1" sendOkEnv samplePost
    claimedState sendOkEnv.sendMessage).1 rfl).2

/-- C1: with `options.pin = true` and a fully successful remote exchange
(the send returns message id 42 and the pin RPC itself succeeds),
`send_publication` nevertheless reports a failure: `pin_message` returns
`None` (its body has no `return`), `_pin_if_requested` reads
`pin_result.ok` and the resulting `AttributeError` is caught as
`unexpected_error`, so the worker records the publication as `retry`, not
`sent`. -/
theorem pin_request_fails_publication :
    send_publication sendOkEnv pinOptionPost =
      Except.ok { ok := false, message_id := none,
                  error := some "unexpected_error: NoneType object has no attribute ok",
                  retry_after_seconds := none, retryable := true } ∧
    sendOkEnv.pinChatMessage.ok = true ∧
    (process_claimed defaultConfig 1000 "worker-1" sendOkEnv pinOptionPost
      claimedState).state.pub.status = PubStatus.retry ∧
    (process_claimed defaultConfig 1000 "worker-1" sendOkEnv pinOptionPost
      claimedState).state.pub.telegram_message_id = none := by
  refine ⟨rfl, rfl, by decide, by decide⟩

end Publisher
